import Mathlib

/-!
Verification development for the google-calendar recipe pipeline of the
TRMNL byos_next_png repository.

The TypeScript source is shallowly embedded:

* JavaScript instants (`Date`) are milliseconds since the local epoch on a
  uniform timeline (every local day is exactly 86400000 ms; the code performs
  no timezone conversion and works in a single local frame).
* The JS `||` default-choosing idiom on strings is modelled explicitly:
  `undefined` is `Option.none` and the empty string is falsy.
* The iCal text parser (`fetchICalEvents` body) is embedded over `List Char`,
  reproducing the first-match semantics of the regexes
  `SUMMARY:(.+)`, `DTSTART[;:](.+)`, `DTEND[;:](.+)`, `UID:(.+)`
  (`.` matches no line terminator, `(.+)` is a non-empty greedy capture to the
  end of the line), `String.prototype.split` on `"BEGIN:VEVENT"`,
  `indexOf`/`substring` truncation at `"END:VEVENT"`, `trim`, and
  `replace(/^[^:]*:/, "")`.
* Network effects are abstracted: each adapter is a function of the outcome of
  its single HTTP request, and the cache/no-cache pipeline takes the adapters
  as oracles together with a trace of the adapter calls it performs.
* `unstable_cache`'s throw-to-skip behaviour is modelled with `Except`:
  `.error` means the function threw (so nothing is persisted),
  `.ok` means a value was returned to be cached.
* `new Date(string)` parsing of event-start strings inside the week filter is
  external JS semantics and is passed in as a parameter
  `parse : String → Option Int` (`none` models an Invalid Date, whose NaN
  comparisons are false).
-/

/-- JS `a || b` for `a : string | undefined`, `b : string | undefined`:
`undefined` and `""` are falsy. -/
def jsOrS (a b : Option String) : Option String :=
  match a with
  | some s => if s = "" then b else some s
  | none => b

/-- JS `a || b` for `a : string | undefined` with a `string` default. -/
def jsOrStr (a : Option String) (b : String) : String :=
  match a with
  | some s => if s = "" then b else s
  | none => b

/-- JS `a || b` on two strings (`""` is falsy). -/
def jsOrStr2 (a b : String) : String :=
  if a = "" then b else a

/-- JS truthiness of a `string | undefined` value. -/
def truthyS (a : Option String) : Bool :=
  match a with
  | some s => decide (s ≠ "")
  | none => false

/-- Canonical calendar event (`interface CalendarEvent`). The optional
`allDay?` field is written by both adapters, so it is modelled as `Bool`. -/
structure CalendarEvent where
  id : String
  title : String
  start : String
  end_ : String
  allDay : Bool
deriving Repr, DecidableEq

/-! ## The iCal parser (body of `fetchICalEvents`) -/

/-- JS regex `.`: any character except a line terminator. -/
def notLineTerm (c : Char) : Bool := c ≠ '\n' && c ≠ '\r'

/-- Greedy `(.+)` capture: the maximal run of non-line-terminator characters. -/
def takeLine (cs : List Char) : List Char := cs.takeWhile notLineTerm

/-- Try to match `MARKER[seps](.+)` at the head of `cs`; on success return the
capture.  The capture must be non-empty, as with `(.+)`. -/
def captureAt (pat : List Char) (seps : List Char) (cs : List Char) :
    Option (List Char) :=
  if cs.take pat.length = pat then
    match cs.drop pat.length with
    | [] => none
    | c :: rest =>
      if seps.contains c then
        match takeLine rest with
        | [] => none
        | cap => some cap
      else none
  else none

/-- First-match scan of `MARKER[seps](.+)` over the whole text, as JS
`String.prototype.match` with a non-global regex. -/
def scanCapture (pat : List Char) (seps : List Char) : List Char → Option (List Char)
  | [] => none
  | c :: rest =>
    match captureAt pat seps (c :: rest) with
    | some cap => some cap
    | none => scanCapture pat seps rest

/-- `eventData.match(/SUMMARY:(.+)/)`, capture group. -/
def summaryMatch (cs : List Char) : Option (List Char) :=
  scanCapture "SUMMARY".data [':'] cs

/-- `eventData.match(/DTSTART[;:](.+)/)`, capture group. -/
def startMatch (cs : List Char) : Option (List Char) :=
  scanCapture "DTSTART".data [';', ':'] cs

/-- `eventData.match(/DTEND[;:](.+)/)`, capture group. -/
def endMatch (cs : List Char) : Option (List Char) :=
  scanCapture "DTEND".data [';', ':'] cs

/-- `eventData.match(/UID:(.+)/)`, capture group. -/
def uidMatch (cs : List Char) : Option (List Char) :=
  scanCapture "UID".data [':'] cs

/-- JS `String.prototype.trim` (captures never contain line terminators, so
only spaces and tabs are actually stripped here). -/
def jsTrim (cs : List Char) : List Char :=
  ((cs.dropWhile Char.isWhitespace).reverse.dropWhile Char.isWhitespace).reverse

/-- The text before the first occurrence of `pat`
(`block.substring(0, block.indexOf(pat))`); `none` when `indexOf` is `-1`. -/
def beforeFirst (pat : List Char) : List Char → Option (List Char)
  | [] => none
  | c :: rest =>
    if (c :: rest).take pat.length = pat then some []
    else (beforeFirst pat rest).map (c :: ·)

/-- `block.substring(0, block.indexOf("END:VEVENT"))`, `none` when the end
marker is absent (the loop `continue`s in that case). -/
def truncAtEnd (block : List Char) : Option (List Char) :=
  beforeFirst "END:VEVENT".data block

/-- `dateStr.replace(/^[^:]*:/, "")`: drop everything through the first colon;
a string with no colon is left unchanged. -/
def dropThruColon (cs : List Char) : List Char :=
  match cs.dropWhile (· ≠ ':') with
  | [] => cs
  | _ :: rest => rest

/-- The inner `parseICalDate` closure: an 8-character value `YYYYMMDD` becomes
`YYYY-MM-DD`; anything else is sliced at the fixed offsets of
`YYYYMMDDTHHMMSS[Z]` into `YYYY-MM-DDTHH:MM:SS`. -/
def parseICalDate (dateStr : List Char) : String :=
  let d := dropThruColon dateStr
  if d.length = 8 then
    String.mk (d.take 4 ++ '-' :: ((d.drop 4).take 2) ++ '-' :: ((d.drop 6).take 2))
  else
    String.mk (d.take 4 ++ '-' :: ((d.drop 4).take 2) ++ '-' :: ((d.drop 6).take 2)
      ++ 'T' :: ((d.drop 9).take 2) ++ ':' :: ((d.drop 11).take 2)
      ++ ':' :: ((d.drop 13).take 2))

/-- One iteration of the `fetchICalEvents` block loop: `i` is the loop index
(used for the synthesized `event-<i>` uid), `block` the text after a
`BEGIN:VEVENT` separator.  `none` when the block is skipped (`continue`). -/
def parseBlock (i : Nat) (block : List Char) : Option CalendarEvent :=
  match truncAtEnd block with
  | none => none
  | some eventData =>
    match startMatch eventData, endMatch eventData with
    | some sRaw, some eRaw =>
      let summary := match summaryMatch eventData with
        | some s => jsTrim s
        | none => "Untitled Event".data
      let startStr := jsTrim sRaw
      let endStr := jsTrim eRaw
      let uid := match uidMatch eventData with
        | some u => jsTrim u
        | none => ("event-" ++ Nat.repr i).data
      some { id := String.mk uid
           , title := String.mk summary
           , start := parseICalDate startStr
           , end_ := parseICalDate endStr
           , allDay := decide (startStr.length = 8) }
    | _, _ => none

/-- The `for (let i = 1; ...)` loop over the block list. -/
def parseBlocks : Nat → List (List Char) → List CalendarEvent
  | _, [] => []
  | i, b :: rest =>
    match parseBlock i b with
    | none => parseBlocks (i + 1) rest
    | some ev => ev :: parseBlocks (i + 1) rest

/-- JS `String.prototype.split` with a non-empty string separator, scanning
left to right over non-overlapping occurrences.  `patRev` is the reversed
separator; `acc` holds the current field reversed. -/
def jsSplitAux (patRev : List Char) : List Char → List Char → List (List Char)
  | [], acc => [acc.reverse]
  | c :: rest, acc =>
    if (c :: acc).take patRev.length = patRev then
      ((c :: acc).drop patRev.length).reverse :: jsSplitAux patRev rest []
    else
      jsSplitAux patRev rest (c :: acc)

/-- `s.split(pat)` for a non-empty `pat`. -/
def jsSplit (pat : String) (s : String) : List (List Char) :=
  jsSplitAux pat.data.reverse s.data []

/-- The pure part of `fetchICalEvents`: parse a fetched iCal document. -/
def parseICal (icalData : String) : List CalendarEvent :=
  parseBlocks 1 ((jsSplit "BEGIN:VEVENT" icalData).drop 1)

/-! ## The two adapters as functions of their single HTTP outcome -/

/-- Outcome of the `fetch` of the iCal feed: a successful response with its
text body, a non-ok status (the code throws and catches), a network error, or
an externally signalled render-cancellation (the `prerender` /
`HANGING_PROMISE_REJECTION` messages). -/
inductive HttpTextOutcome where
  | ok (body : String)
  | badStatus (status : Nat)
  | netError (msg : String)
  | cancelled
deriving Repr, DecidableEq

/-- `fetchICalEvents`: every non-success outcome lands in the `catch` block
and returns `null`; a success parses the body. -/
def fetchICalEvents (outcome : HttpTextOutcome) : Option (List CalendarEvent) :=
  match outcome with
  | .ok body => some (parseICal body)
  | .badStatus _ => none
  | .netError _ => none
  | .cancelled => none

/-- `start`/`end` object of a Google Calendar API item. -/
structure GDateTime where
  dateTime : Option String
  date : Option String
  timeZone : Option String
deriving Repr, DecidableEq

/-- `interface GoogleCalendarEvent`. -/
structure GoogleCalendarEvent where
  id : String
  summary : String
  start : GDateTime
  end_ : GDateTime
deriving Repr, DecidableEq

/-- Outcome of the Google Calendar API `fetch`: a successful JSON response
carrying the optional `items` array, or the same failure modes as the feed. -/
inductive HttpJsonOutcome where
  | ok (items : Option (List GoogleCalendarEvent))
  | badStatus (status : Nat)
  | netError (msg : String)
  | cancelled
deriving Repr, DecidableEq

/-- The per-item mapping of `fetchCalendarEvents`. -/
def transformGoogleEvent (e : GoogleCalendarEvent) : CalendarEvent :=
  { id := e.id
  , title := jsOrStr2 e.summary "Untitled Event"
  , start := jsOrStr e.start.dateTime (jsOrStr e.start.date "")
  , end_ := jsOrStr e.end_.dateTime (jsOrStr e.end_.date "")
  , allDay := truthyS e.start.date }

/-- `fetchCalendarEvents`: failures return `null`; a success with a missing or
empty `items` array returns `[]`; otherwise the items are mapped. -/
def fetchCalendarEvents (outcome : HttpJsonOutcome) : Option (List CalendarEvent) :=
  match outcome with
  | .ok none => some []
  | .ok (some items) =>
    if items.length = 0 then some [] else some (items.map transformGoogleEvent)
  | .badStatus _ => none
  | .netError _ => none
  | .cancelled => none

/-! ## Week bounds -/

/-- Milliseconds per local day. -/
def msPerDay : Int := 86400000

/-- JS `Date.prototype.getDay` on the uniform local timeline: `0` = Sunday.
Day `0` (the local epoch day, 1970-01-01) is a Thursday. -/
def jsGetDay (t : Int) : Int := (t / msPerDay + 4) % 7

/-- `getWeekBounds`.  `setDate(diff)` with
`diff = now.getDate() - day + (day === 0 ? -6 : 1)` moves the instant by
`diff - getDate()` days, i.e. by `-day + (day === 0 ? -6 : 1)` days, and
`setHours(0,0,0,0)` floors to local midnight; `weekEnd` then adds `7` days and
`setHours(23,59,59,999)` lands on the last millisecond of that day.  Returns
`(timeMin, timeMax)` as instants (the code serializes them with
`toISOString`). -/
def getWeekBounds (now : Int) : Int × Int :=
  let day := jsGetDay now
  let dayNumber := now / msPerDay
  let monday := dayNumber - day + (if day = 0 then -6 else 1)
  (monday * msPerDay, (monday + 7) * msPerDay + (msPerDay - 1))

/-! ## The data pipeline -/

/-- `interface CalendarParams` (the optional per-call parameter object). -/
structure CalendarParams where
  calendarId : Option String
  apiKey : Option String
  icalUrl : Option String
  maxResults : Option Nat
deriving Repr, DecidableEq

/-- The two environment variables read by the pipeline. -/
structure Env where
  icalUrl : Option String
  apiKey : Option String
deriving Repr, DecidableEq

/-- The adapters as oracles, as the pipeline sees them: each maps its
arguments to the adapter's result (`none` = the adapter returned `null`). -/
structure Adapters where
  ical : String → Option (List CalendarEvent)
  gcal : String → String → Nat → Option (List CalendarEvent)

/-- One outbound adapter invocation, for the pipeline's call trace. -/
inductive AdapterCall where
  | icalFetch (url : String)
  | gcalFetch (calendarId apiKey : String) (maxResults : Nat)
deriving Repr, DecidableEq

/-- `params?.icalUrl || process.env.GOOGLE_CALENDAR_ICAL_URL`. -/
def resolveIcalUrl (env : Env) (params : Option CalendarParams) : Option String :=
  jsOrS (params.bind (·.icalUrl)) env.icalUrl

/-- `params?.calendarId || "primary"`. -/
def resolveCalendarId (params : Option CalendarParams) : String :=
  jsOrStr (params.bind (·.calendarId)) "primary"

/-- `params?.apiKey || process.env.GOOGLE_CALENDAR_API_KEY || ""`. -/
def resolveApiKey (env : Env) (params : Option CalendarParams) : String :=
  jsOrStr (params.bind (·.apiKey)) (jsOrStr env.apiKey "")

/-- `params?.maxResults || 50` (`0` is falsy in JS). -/
def resolveMaxResults (params : Option CalendarParams) : Nat :=
  match params.bind (·.maxResults) with
  | some n => if n = 0 then 50 else n
  | none => 50

/-- The `else if` arm shared by both pipeline entry points: call the Google
adapter when an API key is present, otherwise leave `events` at `null` with no
outbound call. -/
def pickApi (A : Adapters) (calendarId apiKey : String) (maxResults : Nat) :
    Option (Option (List CalendarEvent)) × List AdapterCall :=
  if apiKey = "" then (none, [])
  else (some (A.gcal calendarId apiKey maxResults),
        [AdapterCall.gcalFetch calendarId apiKey maxResults])

/-- The `if (icalUrl) ... else if (apiKey) ... else ...` source selection
shared verbatim by `fetchCalendarDataNoCache` and the cached fetcher.  The
outer `Option` distinguishes "no adapter was invoked" (unconfigured) from an
adapter result; the inner `Option` is the adapter's `null`. -/
def pickAdapter (A : Adapters) (icalUrl : Option String)
    (calendarId apiKey : String) (maxResults : Nat) :
    Option (Option (List CalendarEvent)) × List AdapterCall :=
  match icalUrl with
  | some url =>
    if url = "" then pickApi A calendarId apiKey maxResults
    else (some (A.ical url), [AdapterCall.icalFetch url])
  | none => pickApi A calendarId apiKey maxResults

/-- The event-start week filter predicate
`eventStart >= weekStart && eventStart <= weekEnd`; an Invalid Date
(`parse = none`) compares false. -/
def inWeek (parse : String → Option Int) (weekStart weekEnd : Int)
    (e : CalendarEvent) : Bool :=
  match parse e.start with
  | some t => decide (weekStart ≤ t) && decide (t ≤ weekEnd)
  | none => false

/-- `events.filter((event) => { ... })` against the week window. -/
def filterWeek (parse : String → Option Int) (weekStart weekEnd : Int)
    (evs : List CalendarEvent) : List CalendarEvent :=
  evs.filter (inWeek parse weekStart weekEnd)

/-- `{events, startDate}` as handed to the renderer; `startDate` is the
instant whose `toISOString` the code returns. -/
structure CalendarResult where
  events : List CalendarEvent
  startDate : Int
deriving Repr, DecidableEq

/-- `fetchCalendarDataNoCache`, with the trace of adapter calls it makes. -/
def fetchCalendarDataNoCache (parse : String → Option Int) (A : Adapters)
    (env : Env) (now : Int) (params : Option CalendarParams) :
    CalendarResult × List AdapterCall :=
  match pickAdapter A (resolveIcalUrl env params) (resolveCalendarId params)
      (resolveApiKey env params) (resolveMaxResults params) with
  | (none, calls) => ({ events := [], startDate := now }, calls)
  | (some none, calls) => ({ events := [], startDate := now }, calls)
  | (some (some evs), calls) =>
    let wb := getWeekBounds now
    ({ events := filterWeek parse wb.1 wb.2 evs, startDate := wb.1 }, calls)

/-- The function wrapped by `unstable_cache`: `.error msg` models a `throw`
(the outcome is not persisted), `.ok` a value returned to be cached. -/
def getCachedCalendarData (parse : String → Option Int) (A : Adapters)
    (env : Env) (now : Int) (params : Option CalendarParams) :
    Except String CalendarResult × List AdapterCall :=
  match pickAdapter A (resolveIcalUrl env params) (resolveCalendarId params)
      (resolveApiKey env params) (resolveMaxResults params) with
  | (none, calls) => (.error "No calendar source provided - skip caching", calls)
  | (some none, calls) => (.error "Empty or invalid data - skip caching", calls)
  | (some (some evs), calls) =>
    let wb := getWeekBounds now
    (.ok { events := filterWeek parse wb.1 wb.2 evs, startDate := wb.1 }, calls)

/-- The default export `getData`: try the cached path, fall back to the
uncached path on any throw.  The result is `Except`-typed to record that the
`try`/`catch` lets no error escape: `.error` is never produced. -/
def getData (parse : String → Option Int) (A : Adapters)
    (env : Env) (now : Int) (params : Option CalendarParams) :
    Except String CalendarResult :=
  match (getCachedCalendarData parse A env now params).1 with
  | .ok r => .ok r
  | .error _ => .ok (fetchCalendarDataNoCache parse A env now params).1

/-! ## Grid layout (`google-calendar.tsx`) -/

/-- The `getHours`/`getMinutes` pair of a parsed event boundary. -/
structure HM where
  hour : Nat
  minute : Nat
deriving Repr, DecidableEq

/-- The `{top, height}` slot rectangle produced by `getEventStyle`. -/
structure EventStyle where
  top : Int
  height : Int
deriving Repr, DecidableEq

/-- `getEventStyle`: half-hour slots measured from the 7:00 grid origin. -/
def getEventStyle (s e : HM) : EventStyle :=
  let startOffset : Int := ((s.hour : Int) - 7) * 2 + (if 30 ≤ s.minute then 1 else 0)
  let endOffset : Int := ((e.hour : Int) - 7) * 2 + (if 30 ≤ e.minute then 1 else 0)
  { top := startOffset, height := max 1 (endOffset - startOffset) }

/-! ## Helper lemmas -/

theorem truthyS_false_iff (o : Option String) :
    truthyS o = false ↔ o = none ∨ o = some "" := by
  cases o <;> simp [truthyS]

theorem pickAdapter_unconfigured (A : Adapters) (icalUrl : Option String)
    (calendarId : String) (maxResults : Nat) (h : truthyS icalUrl = false) :
    pickAdapter A icalUrl calendarId "" maxResults = (none, []) := by
  rcases (truthyS_false_iff icalUrl).mp h with h' | h' <;>
    simp [h', pickAdapter, pickApi]

theorem pickAdapter_feed (A : Adapters) (url calendarId apiKey : String)
    (maxResults : Nat) (h : url ≠ "") :
    pickAdapter A (some url) calendarId apiKey maxResults =
      (some (A.ical url), [AdapterCall.icalFetch url]) := by
  simp [pickAdapter, h]

theorem pickAdapter_api (A : Adapters) (icalUrl : Option String)
    (calendarId apiKey : String) (maxResults : Nat)
    (h : truthyS icalUrl = false) (hk : apiKey ≠ "") :
    pickAdapter A icalUrl calendarId apiKey maxResults =
      (some (A.gcal calendarId apiKey maxResults),
       [AdapterCall.gcalFetch calendarId apiKey maxResults]) := by
  rcases (truthyS_false_iff icalUrl).mp h with h' | h' <;>
    simp [h', pickAdapter, pickApi, hk]

/-! ## Claim theorems -/

/-- Claim C1: the claim asserts that the window of `getWeekBounds` spans
exactly 7 days minus 1 millisecond.  The start really is the Monday of the
current local week at local midnight (including when now falls on a Sunday),
but the end lies on the *following Monday* at 23:59:59.999 local, so for every
`now` the span is 8 days minus 1 millisecond — contradicting the claim and the
function's own doc comment "Monday to Sunday". -/
theorem weekBounds_monday_midnight_span (now : Int) :
    jsGetDay (getWeekBounds now).1 = 1 ∧
    (getWeekBounds now).1 % msPerDay = 0 ∧
    (getWeekBounds now).2 - (getWeekBounds now).1 = 8 * msPerDay - 1 ∧
    (getWeekBounds now).2 - (getWeekBounds now).1 ≠ 7 * msPerDay - 1 := by
  simp only [getWeekBounds, jsGetDay, msPerDay]
  omega

/-- The divergence of claim C1, evaluated at `now = 0` (Thursday 1970-01-01
00:00 local): the start is Monday 1969-12-29 00:00 local, but the window spans
8 days minus 1 ms, not 7 days minus 1 ms. -/
theorem weekBounds_span_eval_at_zero :
    jsGetDay (getWeekBounds 0).1 = 1 ∧
    (getWeekBounds 0).1 = -259200000 ∧
    (getWeekBounds 0).2 - (getWeekBounds 0).1 = 8 * msPerDay - 1 ∧
    (getWeekBounds 0).2 - (getWeekBounds 0).1 ≠ 7 * msPerDay - 1 := by
  refine ⟨by decide, by decide, by decide, by decide⟩

/-- Claim C8: `getEventStyle` computes the slot offset of a timed event as
`(hour − 7) * 2 + (minute >= 30 ? 1 : 0)` for both boundaries, and the height
as `max 1 (endOffset − startOffset)`, which is never zero; an event from 09:00
to 10:00 yields `top = 4`, `height = 2`. -/
theorem getEventStyle_formula :
    (∀ s e : HM,
      (getEventStyle s e).top =
        ((s.hour : Int) - 7) * 2 + (if 30 ≤ s.minute then 1 else 0) ∧
      (getEventStyle s e).height =
        max 1 ((((e.hour : Int) - 7) * 2 + (if 30 ≤ e.minute then 1 else 0)) -
               (((s.hour : Int) - 7) * 2 + (if 30 ≤ s.minute then 1 else 0))) ∧
      1 ≤ (getEventStyle s e).height) ∧
    getEventStyle ⟨9, 0⟩ ⟨10, 0⟩ = ⟨4, 2⟩ := by
  refine ⟨fun s e => ⟨rfl, rfl, le_max_left 1 _⟩, by decide⟩

/-- Claim C9: the week-window filter is idempotent — filtering an
already-filtered event list against the same window returns the identical
list. -/
theorem filterWeek_idempotent (parse : String → Option Int)
    (weekStart weekEnd : Int) (evs : List CalendarEvent) :
    filterWeek parse weekStart weekEnd (filterWeek parse weekStart weekEnd evs) =
      filterWeek parse weekStart weekEnd evs := by
  unfold filterWeek
  rw [List.filter_filter]
  simp

/-- Claim C10: for a timed event starting before the 07:00 grid origin the
computed top offset is negative (a 06:00 start yields −2): offsets are not
clamped to the visible grid, while the height stays at least 1. -/
theorem getEventStyle_negative_top :
    (∀ s e : HM, s.hour < 7 → (getEventStyle s e).top < 0) ∧
    (∀ s e : HM, 1 ≤ (getEventStyle s e).height) ∧
    (∀ e : HM, (getEventStyle ⟨6, 0⟩ e).top = -2) := by
  refine ⟨fun s e h => ?_, fun s e => le_max_left 1 _, fun e => rfl⟩
  unfold getEventStyle
  simp only
  split <;> omega

/-- Claim C10, witnessed at a 06:00–07:00 event: the start hour 6 is before
the 07:00 origin and the computed top offset is negative. -/
theorem getEventStyle_negative_top_witness :
    (⟨6, 0⟩ : HM).hour < 7 ∧ (getEventStyle ⟨6, 0⟩ ⟨7, 0⟩).top < 0 :=
  ⟨by decide, getEventStyle_negative_top.1 ⟨6, 0⟩ ⟨7, 0⟩ (by decide)⟩

/-- Claim C2 counterexample: the claim says the cacheable path throws for an
adapter result that is an *empty event list*, but `!events` in JS is false for
`[]`, so with a configured feed whose adapter returns an empty list the
cacheable path returns a value (here `{events := [], startDate := Monday}`) to
be cached instead of throwing. -/
theorem cachedPath_emptyList_cached_cex :
    (getCachedCalendarData (fun _ => some 0)
      ⟨fun _ => some [], fun _ _ _ => some []⟩ ⟨none, none⟩ 0
      (some ⟨none, none, some "https://example.com/a.ics", none⟩)).1 =
      .ok ⟨[], -259200000⟩ := rfl

/-- Claim C2 as amended: the cacheable path throws for an unconfigured source
and for a `null` adapter result (failure/cancellation), but an adapter result
that is an empty event list is *not* excluded: any non-null adapter result is
filtered and returned as a value to be cached. -/
theorem cachedPath_skip_conditions (parse : String → Option Int) (A : Adapters)
    (env : Env) (now : Int) (params : Option CalendarParams) :
    (truthyS (resolveIcalUrl env params) = false →
      resolveApiKey env params = "" →
      (getCachedCalendarData parse A env now params).1 =
        .error "No calendar source provided - skip caching") ∧
    (∀ url, resolveIcalUrl env params = some url → url ≠ "" →
      A.ical url = none →
      (getCachedCalendarData parse A env now params).1 =
        .error "Empty or invalid data - skip caching") ∧
    (truthyS (resolveIcalUrl env params) = false →
      resolveApiKey env params ≠ "" →
      A.gcal (resolveCalendarId params) (resolveApiKey env params)
        (resolveMaxResults params) = none →
      (getCachedCalendarData parse A env now params).1 =
        .error "Empty or invalid data - skip caching") ∧
    (∀ url evs, resolveIcalUrl env params = some url → url ≠ "" →
      A.ical url = some evs →
      (getCachedCalendarData parse A env now params).1 =
        .ok { events := filterWeek parse (getWeekBounds now).1 (getWeekBounds now).2 evs
            , startDate := (getWeekBounds now).1 }) := by
  refine ⟨?_, ?_, ?_, ?_⟩
  · intro h hk
    unfold getCachedCalendarData
    rw [hk, pickAdapter_unconfigured A _ _ _ h]
  · intro url hu hne hnone
    unfold getCachedCalendarData
    rw [hu, pickAdapter_feed A _ _ _ _ hne, hnone]
  · intro h hk hnone
    unfold getCachedCalendarData
    rw [pickAdapter_api A _ _ _ _ h hk, hnone]
  · intro url evs hu hne hok
    unfold getCachedCalendarData
    rw [hu, pickAdapter_feed A _ _ _ _ hne, hok]

/-- Claim C2 as amended, witnessed on the unconfigured case: no feed URL and
no API key anywhere, so the cacheable path throws the skip-caching error. -/
theorem cachedPath_skip_conditions_witness :
    truthyS (resolveIcalUrl ⟨none, none⟩ none) = false ∧
    resolveApiKey ⟨none, none⟩ none = "" ∧
    (getCachedCalendarData (fun _ => none)
      ⟨fun _ => none, fun _ _ _ => none⟩ ⟨none, none⟩ 0 none).1 =
      .error "No calendar source provided - skip caching" :=
  ⟨rfl, rfl, (cachedPath_skip_conditions _ _ _ _ _).1 rfl rfl⟩

/-- Claim C3: for every configuration and adapter outcome, `getData` never
passes an error to its caller: the `try`/`catch` always produces an `.ok`
result, and in the fully unconfigured worst case it is the empty event list
with `startDate = now`. -/
theorem getData_total (parse : String → Option Int) (A : Adapters)
    (env : Env) (now : Int) (params : Option CalendarParams) :
    (∃ r : CalendarResult, getData parse A env now params = .ok r) ∧
    (truthyS (resolveIcalUrl env params) = false →
      resolveApiKey env params = "" →
      getData parse A env now params = .ok { events := [], startDate := now }) := by
  constructor
  · cases h : (getCachedCalendarData parse A env now params).1 with
    | ok r => exact ⟨r, by unfold getData; rw [h]⟩
    | error e =>
      exact ⟨(fetchCalendarDataNoCache parse A env now params).1,
        by unfold getData; rw [h]⟩
  · intro h hk
    unfold getData getCachedCalendarData fetchCalendarDataNoCache
    rw [hk, pickAdapter_unconfigured A _ _ _ h]

/-- Claim C3, witnessed on the fully unconfigured input: `getData` returns
`.ok` with the empty event list and `startDate = now`. -/
theorem getData_total_witness :
    truthyS (resolveIcalUrl ⟨none, none⟩ none) = false ∧
    resolveApiKey ⟨none, none⟩ none = "" ∧
    getData (fun _ => none) ⟨fun _ => none, fun _ _ _ => none⟩
      ⟨none, none⟩ 5 none = .ok ⟨[], 5⟩ :=
  ⟨rfl, rfl, (getData_total _ _ _ _ _).2 rfl rfl⟩

/-- Claim C4: source selection follows strict precedence in both pipeline
entry points.  A present (truthy) feed URL invokes exactly the feed adapter; a
present API key with no feed URL invokes exactly the remote-API adapter; with
neither, no adapter call at all is made and the uncached result is the empty
event list. -/
theorem source_selection_precedence (parse : String → Option Int) (A : Adapters)
    (env : Env) (now : Int) (params : Option CalendarParams) :
    (∀ url, resolveIcalUrl env params = some url → url ≠ "" →
      (fetchCalendarDataNoCache parse A env now params).2 =
        [AdapterCall.icalFetch url] ∧
      (getCachedCalendarData parse A env now params).2 =
        [AdapterCall.icalFetch url]) ∧
    (truthyS (resolveIcalUrl env params) = false →
      resolveApiKey env params ≠ "" →
      (fetchCalendarDataNoCache parse A env now params).2 =
        [AdapterCall.gcalFetch (resolveCalendarId params)
          (resolveApiKey env params) (resolveMaxResults params)] ∧
      (getCachedCalendarData parse A env now params).2 =
        [AdapterCall.gcalFetch (resolveCalendarId params)
          (resolveApiKey env params) (resolveMaxResults params)]) ∧
    (truthyS (resolveIcalUrl env params) = false →
      resolveApiKey env params = "" →
      (fetchCalendarDataNoCache parse A env now params).2 = [] ∧
      (getCachedCalendarData parse A env now params).2 = [] ∧
      (fetchCalendarDataNoCache parse A env now params).1.events = []) := by
  refine ⟨?_, ?_, ?_⟩
  · intro url hu hne
    constructor
    · unfold fetchCalendarDataNoCache
      rw [hu, pickAdapter_feed A _ _ _ _ hne]
      cases A.ical url with
      | none => rfl
      | some evs => rfl
    · unfold getCachedCalendarData
      rw [hu, pickAdapter_feed A _ _ _ _ hne]
      cases A.ical url with
      | none => rfl
      | some evs => rfl
  · intro h hk
    constructor
    · unfold fetchCalendarDataNoCache
      rw [pickAdapter_api A _ _ _ _ h hk]
      cases A.gcal (resolveCalendarId params) (resolveApiKey env params)
          (resolveMaxResults params) with
      | none => rfl
      | some evs => rfl
    · unfold getCachedCalendarData
      rw [pickAdapter_api A _ _ _ _ h hk]
      cases A.gcal (resolveCalendarId params) (resolveApiKey env params)
          (resolveMaxResults params) with
      | none => rfl
      | some evs => rfl
  · intro h hk
    refine ⟨?_, ?_, ?_⟩ <;>
      (first
        | (unfold fetchCalendarDataNoCache
           rw [hk, pickAdapter_unconfigured A _ _ _ h])
        | (unfold getCachedCalendarData
           rw [hk, pickAdapter_unconfigured A _ _ _ h]))

/-- Claim C4, witnessed on a configuration with a feed URL: only the feed
adapter is invoked, in both pipeline entry points. -/
theorem source_selection_precedence_witness :
    resolveIcalUrl ⟨none, none⟩
      (some ⟨none, none, some "https://example.com/a.ics", none⟩) =
      some "https://example.com/a.ics" ∧
    (fetchCalendarDataNoCache (fun _ => none)
      ⟨fun _ => none, fun _ _ _ => none⟩ ⟨none, none⟩ 0
      (some ⟨none, none, some "https://example.com/a.ics", none⟩)).2 =
      [AdapterCall.icalFetch "https://example.com/a.ics"] ∧
    (getCachedCalendarData (fun _ => none)
      ⟨fun _ => none, fun _ _ _ => none⟩ ⟨none, none⟩ 0
      (some ⟨none, none, some "https://example.com/a.ics", none⟩)).2 =
      [AdapterCall.icalFetch "https://example.com/a.ics"] :=
  ⟨rfl,
   ((source_selection_precedence (fun _ => none)
      ⟨fun _ => none, fun _ _ _ => none⟩ ⟨none, none⟩ 0
      (some ⟨none, none, some "https://example.com/a.ics", none⟩)).1
      "https://example.com/a.ics" rfl (by decide)).1,
   ((source_selection_precedence (fun _ => none)
      ⟨fun _ => none, fun _ _ _ => none⟩ ⟨none, none⟩ 0
      (some ⟨none, none, some "https://example.com/a.ics", none⟩)).1
      "https://example.com/a.ics" rfl (by decide)).2⟩

theorem parseBlocks_append (xs ys : List (List Char)) (i : Nat) :
    parseBlocks i (xs ++ ys) = parseBlocks i xs ++ parseBlocks (i + xs.length) ys := by
  induction xs generalizing i with
  | nil => simp [parseBlocks]
  | cons b rest ih =>
    have harith : i + 1 + rest.length = i + (b :: rest).length := by
      simp only [List.length_cons]
      omega
    cases h : parseBlock i b with
    | none =>
      calc parseBlocks i ((b :: rest) ++ ys)
          = parseBlocks (i + 1) (rest ++ ys) := by
            show parseBlocks i (b :: (rest ++ ys)) = _
            simp only [parseBlocks, h]
        _ = parseBlocks (i + 1) rest ++ parseBlocks (i + 1 + rest.length) ys :=
            ih (i + 1)
        _ = parseBlocks i (b :: rest) ++ parseBlocks (i + (b :: rest).length) ys := by
            rw [harith]
            congr 1
            simp only [parseBlocks, h]
    | some ev =>
      calc parseBlocks i ((b :: rest) ++ ys)
          = ev :: parseBlocks (i + 1) (rest ++ ys) := by
            show parseBlocks i (b :: (rest ++ ys)) = _
            simp only [parseBlocks, h]
        _ = ev :: (parseBlocks (i + 1) rest ++ parseBlocks (i + 1 + rest.length) ys) := by
            rw [ih (i + 1)]
        _ = parseBlocks i (b :: rest) ++ parseBlocks (i + (b :: rest).length) ys := by
            rw [harith]
            simp only [parseBlocks, h, List.cons_append]

/-- Claim C5: a `VEVENT` block whose data (before its `END:VEVENT` marker)
matches no `DTSTART` or no `DTEND` contributes no event and does not abort the
parse: the block loop produces exactly the events of the surrounding blocks,
at their own loop indices. -/
theorem malformed_block_skipped (i : Nat) (pre post : List (List Char))
    (b : List Char)
    (hbad : ∀ data, truncAtEnd b = some data →
      startMatch data = none ∨ endMatch data = none) :
    parseBlocks i (pre ++ b :: post) =
      parseBlocks i pre ++ parseBlocks (i + pre.length + 1) post := by
  have hnone : parseBlock (i + pre.length) b = none := by
    cases ht : truncAtEnd b with
    | none => simp [parseBlock, ht]
    | some data =>
      rcases hbad data ht with h | h
      · simp [parseBlock, ht, h]
      · cases hs : startMatch data with
        | none => simp [parseBlock, ht, hs]
        | some s => simp [parseBlock, ht, hs, h]
  rw [parseBlocks_append]
  simp only [parseBlocks, hnone]

/-- Claim C5, witnessed on a three-block document: the middle block has an
`END:VEVENT` marker but no `DTSTART`/`DTEND`, is skipped, and the two
well-formed sibling blocks still produce their events. -/
theorem malformed_block_skipped_witness :
    truncAtEnd "\nSUMMARY:Bad\nEND:VEVENT\n".data = some "\nSUMMARY:Bad\n".data ∧
    startMatch "\nSUMMARY:Bad\n".data = none ∧
    parseBlocks 1
      ["\nSUMMARY:One\nDTSTART:20240101\nDTEND:20240102\nUID:a1\nEND:VEVENT\n".data,
       "\nSUMMARY:Bad\nEND:VEVENT\n".data,
       "\nSUMMARY:Two\nDTSTART:20240103T090000\nDTEND:20240103T100000\nUID:a2\nEND:VEVENT\n".data] =
      parseBlocks 1
        ["\nSUMMARY:One\nDTSTART:20240101\nDTEND:20240102\nUID:a1\nEND:VEVENT\n".data] ++
      parseBlocks 3
        ["\nSUMMARY:Two\nDTSTART:20240103T090000\nDTEND:20240103T100000\nUID:a2\nEND:VEVENT\n".data] :=
  ⟨rfl, rfl,
   malformed_block_skipped 1
     ["\nSUMMARY:One\nDTSTART:20240101\nDTEND:20240102\nUID:a1\nEND:VEVENT\n".data]
     ["\nSUMMARY:Two\nDTSTART:20240103T090000\nDTEND:20240103T100000\nUID:a2\nEND:VEVENT\n".data]
     "\nSUMMARY:Bad\nEND:VEVENT\n".data
     (fun data h => by
       rw [show truncAtEnd "\nSUMMARY:Bad\nEND:VEVENT\n".data =
             some "\nSUMMARY:Bad\n".data from rfl] at h
       cases h
       exact Or.inl rfl)⟩

/-- Claim C6: for every event the block loop produces, the `allDay` flag is
decided by the length of the trimmed `DTSTART` capture: exactly 8 characters
(a bare `YYYYMMDD`) gives `allDay = true`, anything longer (a date-time, or a
value still carrying parameters such as `VALUE=DATE:...`) gives
`allDay = false`. -/
theorem dtstart_length_decides_allDay (i : Nat) (block : List Char)
    (ev : CalendarEvent) (h : parseBlock i block = some ev) :
    ∀ data sRaw, truncAtEnd block = some data → startMatch data = some sRaw →
      (((jsTrim sRaw).length = 8 → ev.allDay = true) ∧
       (8 < (jsTrim sRaw).length → ev.allDay = false)) := by
  intro data sRaw hdata hs
  cases he : endMatch data with
  | none => simp [parseBlock, hdata, hs, he] at h
  | some eRaw =>
    simp only [parseBlock, hdata, hs, he, Option.some.injEq] at h
    subst h
    constructor
    · intro h8; simp [h8]
    · intro h8
      simp only [decide_eq_false_iff_not]
      omega

/-- Claim C6, witnessed on a block with the 8-character value `20240101`:
the produced event has `allDay = true`. -/
theorem dtstart_length_decides_allDay_witness :
    parseBlock 2 "\nUID:x1\nSUMMARY:Meet\nDTSTART:20240101\nDTEND:20240102\nEND:VEVENT\n".data =
      some ⟨"x1", "Meet", "2024-01-01", "2024-01-02", true⟩ ∧
    truncAtEnd "\nUID:x1\nSUMMARY:Meet\nDTSTART:20240101\nDTEND:20240102\nEND:VEVENT\n".data =
      some "\nUID:x1\nSUMMARY:Meet\nDTSTART:20240101\nDTEND:20240102\n".data ∧
    startMatch "\nUID:x1\nSUMMARY:Meet\nDTSTART:20240101\nDTEND:20240102\n".data =
      some "20240101".data ∧
    (jsTrim "20240101".data).length = 8 ∧
    (⟨"x1", "Meet", "2024-01-01", "2024-01-02", true⟩ : CalendarEvent).allDay = true :=
  ⟨rfl, rfl, rfl, rfl,
   (dtstart_length_decides_allDay 2
     "\nUID:x1\nSUMMARY:Meet\nDTSTART:20240101\nDTEND:20240102\nEND:VEVENT\n".data
     ⟨"x1", "Meet", "2024-01-01", "2024-01-02", true⟩ rfl
     "\nUID:x1\nSUMMARY:Meet\nDTSTART:20240101\nDTEND:20240102\n".data
     "20240101".data rfl rfl).1 rfl⟩

/-- Claim C7: both adapters return `null` (`none`), never an empty list, on a
non-ok HTTP status, a network error, or a render-cancellation; conversely a
successful response with zero items — an iCal body with no `VEVENT` block, a
JSON response with `items` missing or `[]` — yields an empty list, never
`null` (a feed success is always `some`). -/
theorem adapter_null_vs_empty :
    (∀ body, (jsSplit "BEGIN:VEVENT" body).length = 1 →
      fetchICalEvents (.ok body) = some []) ∧
    (∀ st, fetchICalEvents (.badStatus st) = none) ∧
    (∀ msg, fetchICalEvents (.netError msg) = none) ∧
    fetchICalEvents .cancelled = none ∧
    (∀ body, ∃ evs, fetchICalEvents (.ok body) = some evs) ∧
    (∀ st, fetchCalendarEvents (.badStatus st) = none) ∧
    (∀ msg, fetchCalendarEvents (.netError msg) = none) ∧
    fetchCalendarEvents .cancelled = none ∧
    fetchCalendarEvents (.ok none) = some [] ∧
    fetchCalendarEvents (.ok (some [])) = some [] ∧
    (∀ items, fetchCalendarEvents (.ok (some items)) ≠ none) := by
  refine ⟨?_, fun _ => rfl, fun _ => rfl, rfl, fun body => ⟨_, rfl⟩,
    fun _ => rfl, fun _ => rfl, rfl, rfl, rfl, ?_⟩
  · intro body h
    have hdrop : (jsSplit "BEGIN:VEVENT" body).drop 1 = [] :=
      List.drop_eq_nil_iff.mpr (by omega)
    simp only [fetchICalEvents, parseICal, hdrop, parseBlocks]
  · intro items
    simp only [fetchCalendarEvents]
    split <;> simp

/-- Claim C7, witnessed on an empty feed body: the split yields a single
field, and the feed adapter returns the empty list (not `null`). -/
theorem adapter_null_vs_empty_witness :
    (jsSplit "BEGIN:VEVENT" "").length = 1 ∧ fetchICalEvents (.ok "") = some [] :=
  ⟨rfl, adapter_null_vs_empty.1 "" rfl⟩
